import Mathlib

set_option maxHeartbeats 1000000

/-- JavaScript values as handled by the helpers in src/helpers.js: JSON-like
data. Numbers are modelled as integers: the helpers only test numbers for
truthiness and print them, and the HTTP status codes the spec talks about are
integers. -/
inductive JSVal where
  | undefined
  | null
  | bool (b : Bool)
  | num (n : Int)
  | str (s : String)
  | arr (elems : List JSVal)
  | obj (fields : List (String × JSVal))

/-- Exception raised by the embedded code. The only uncaught throw the
helpers can produce is a TypeError from a property access on null or
undefined. -/
inductive JSErr where
  | typeError

/-- JavaScript truthiness for the modelled values: undefined, null, false,
0 and the empty string are falsy, everything else is truthy. -/
def truthy : JSVal → Bool
  | .undefined => false
  | .null => false
  | .bool b => b
  | .num n => n != 0
  | .str s => s != ""
  | .arr _ => true
  | .obj _ => true

/-- First-occurrence association lookup in an object field list; an absent
key reads as undefined, as in JavaScript. -/
def lookupField : List (String × JSVal) → String → JSVal
  | [], _ => .undefined
  | (k, v) :: fs, key => if k = key then v else lookupField fs key

/-- Property access e.k as in JavaScript: throws TypeError on null and
undefined, reads the field of an object, and yields undefined on every other
value (primitives have none of the properties the helpers read). -/
def getField : JSVal → String → Except JSErr JSVal
  | .undefined, _ => .error .typeError
  | .null, _ => .error .typeError
  | .obj fs, k => .ok (lookupField fs k)
  | _, _ => .ok .undefined

mutual

/-- JavaScript ToString as applied by template-literal interpolation. -/
def templateStr : JSVal → String
  | .undefined => "undefined"
  | .null => "null"
  | .bool b => cond b "true" "false"
  | .num n => toString n
  | .str s => s
  | .arr xs => String.intercalate "," (templateStrElems xs)
  | .obj _ => "[object Object]"

/-- Array.prototype.toString joins elements with commas, rendering null and
undefined elements as the empty string. -/
def templateStrElems : List JSVal → List String
  | [] => []
  | .undefined :: xs => "" :: templateStrElems xs
  | .null :: xs => "" :: templateStrElems xs
  | x :: xs => templateStr x :: templateStrElems xs

end

/-- Lower-case hexadecimal digit, for the control-character escapes of
JSON.stringify. -/
def hexDigit (n : Nat) : Char :=
  if n < 10 then Char.ofNat (48 + n) else Char.ofNat (87 + n)

/-- Four-digit hexadecimal rendering of a code point below 0x20. -/
def hex4 (n : Nat) : String :=
  String.mk [hexDigit (n / 4096 % 16), hexDigit (n / 256 % 16),
             hexDigit (n / 16 % 16), hexDigit (n % 16)]

/-- Escape of one character inside a JSON string literal, following the
QuoteJSONString algorithm used by JSON.stringify: the double quote (34) and
the backslash (92) are escaped with a backslash, the control characters
backspace, tab, newline, form feed and carriage return get their short
escapes, every other control character below 0x20 gets a four-digit unicode
escape, and all remaining characters stand for themselves. -/
def escapeChar (c : Char) : String :=
  if c.toNat = 34 then "\\\""
  else if c.toNat = 92 then "\\\\"
  else if c.toNat = 8 then "\\b"
  else if c.toNat = 9 then "\\t"
  else if c.toNat = 10 then "\\n"
  else if c.toNat = 12 then "\\f"
  else if c.toNat = 13 then "\\r"
  else if c.toNat < 32 then "\\u" ++ hex4 c.toNat
  else String.singleton c

/-- JSON string literal for s, double-quoted and escaped as JSON.stringify
does it. -/
def quoteJSONString (s : String) : String :=
  "\"" ++ String.join (s.toList.map escapeChar) ++ "\""

mutual

/-- JSON.stringify with no space argument, as called on response.body in
reduceError. Returns none where JSON.stringify returns undefined, which for
the modelled values happens exactly at undefined itself. Object fields whose
value serializes to undefined are skipped; undefined array elements
serialize as null. -/
def jsonStringify : JSVal → Option String
  | .undefined => none
  | .null => some "null"
  | .bool b => some (cond b "true" "false")
  | .num n => some (toString n)
  | .str s => some (quoteJSONString s)
  | .arr xs => some ("[" ++ String.intercalate "," (jsonStringifyElems xs) ++ "]")
  | .obj fs => some ("\x7b" ++ String.intercalate "," (jsonStringifyFields fs) ++ "\x7d")

/-- Serialization of the elements of an array, holes rendered as null. -/
def jsonStringifyElems : List JSVal → List String
  | [] => []
  | x :: xs => (jsonStringify x).getD "null" :: jsonStringifyElems xs

/-- Serialization of the fields of an object, skipping fields whose value
serializes to undefined. -/
def jsonStringifyFields : List (String × JSVal) → List String
  | [] => []
  | (k, v) :: fs =>
    match jsonStringify v with
    | some s => (quoteJSONString k ++ ":" ++ s) :: jsonStringifyFields fs
    | none => jsonStringifyFields fs

end

/-- Indentation of depth d at a gap of two spaces, for JSON.stringify with
space argument 2. -/
def indentStr (d : Nat) : String :=
  String.join (List.replicate d "  ")

mutual

/-- JSON.stringify with space argument 2, as used in the debug log lines of
both interceptors: nonempty arrays and objects are spread over lines with
two-space indentation, and a space follows the colon of each field. -/
def jsonStringifyInd (d : Nat) : JSVal → Option String
  | .undefined => none
  | .null => some "null"
  | .bool b => some (cond b "true" "false")
  | .num n => some (toString n)
  | .str s => some (quoteJSONString s)
  | .arr xs =>
    match jsonStringifyIndElems (d + 1) xs with
    | [] => some "[]"
    | items => some ("[\n" ++ String.intercalate ",\n" (items.map (fun s => indentStr (d + 1) ++ s)) ++ "\n" ++ indentStr d ++ "]")
  | .obj fs =>
    match jsonStringifyIndFields (d + 1) fs with
    | [] => some "\x7b\x7d"
    | items => some ("\x7b\n" ++ String.intercalate ",\n" (items.map (fun s => indentStr (d + 1) ++ s)) ++ "\n" ++ indentStr d ++ "\x7d")

/-- Indented serialization of array elements, holes rendered as null. -/
def jsonStringifyIndElems (d : Nat) : List JSVal → List String
  | [] => []
  | x :: xs => (jsonStringifyInd d x).getD "null" :: jsonStringifyIndElems d xs

/-- Indented serialization of object fields, skipping undefined values. -/
def jsonStringifyIndFields (d : Nat) : List (String × JSVal) → List String
  | [] => []
  | (k, v) :: fs =>
    match jsonStringifyInd d v with
    | some s => (quoteJSONString k ++ ": " ++ s) :: jsonStringifyIndFields d fs
    | none => jsonStringifyIndFields d fs

end

/-- Template-literal interpolation of the result of JSON.stringify: when the
call returned undefined (none), the interpolation prints the word
undefined. -/
def interpolate (o : Option String) : String :=
  o.getD "undefined"

/-- Test for the undefined value, which is the trigger of JavaScript default
parameter values. -/
def isUndefined : JSVal → Bool
  | .undefined => true
  | _ => false

/-- Embedding of reduceError from src/helpers.js. The default parameter
replaces undefined by an empty object; the access error.response throws on
null; when response is truthy, status, statusText and body are read and
tested for truthiness with the short-circuit of the source conjunction; when
all three are truthy the template string of the source is returned, and on
every other path the defaulted error value itself is returned. -/
def reduceError (error0 : JSVal) : Except JSErr JSVal :=
  let error := if isUndefined error0 then JSVal.obj [] else error0
  match getField error "response" with
  | .error e => .error e
  | .ok response =>
    if truthy response then
      match getField response "status" with
      | .error e => .error e
      | .ok status =>
        if truthy status then
          match getField response "statusText" with
          | .error e => .error e
          | .ok statusText =>
            if truthy statusText then
              match getField response "body" with
              | .error e => .error e
              | .ok body =>
                if truthy body then
                  .ok (.str (templateStr status ++ " - " ++ templateStr statusText
                    ++ " (" ++ interpolate (jsonStringify body) ++ ")"))
                else .ok error
            else .ok error
        else .ok error
    else .ok error

/-- Embedding of createRequestOptions from src/helpers.js. The parameter
object is destructured: each of tenantId, apiKey, accessToken and body is a
property read, which throws a TypeError when the argument is null or
undefined, and body defaults to an empty object when its property is
undefined. The result is the object literal of the source, with its fields
in source order. -/
def createRequestOptions (params : JSVal) : Except JSErr JSVal :=
  match getField params "tenantId" with
  | .error e => .error e
  | .ok tenantId =>
    match getField params "apiKey" with
    | .error e => .error e
    | .ok apiKey =>
      match getField params "accessToken" with
      | .error e => .error e
      | .ok accessToken =>
        match getField params "body" with
        | .error e => .error e
        | .ok body0 =>
          let body := if isUndefined body0 then JSVal.obj [] else body0
          .ok (.obj
            [("requestBody", body),
             ("securities", .obj
               [("authorized", .obj
                 [("BearerAuth", .obj [("value", accessToken)]),
                  ("ApiKeyAuth", .obj [("value", apiKey)])])]),
             ("serverVariables", .obj
               [("ORGANIZATION", tenantId)])])

/-- Embedding of requestInterceptor from src/helpers.js: it emits one debug
log line holding the request serialized with JSON.stringify at space 2 and
returns the request itself. The log is modelled as the list of emitted
lines. Over the modelled values JSON.stringify cannot throw (there are no
cyclic values), so the function is total. -/
def requestInterceptor (req : JSVal) : List String × JSVal :=
  (["REQUEST:\n " ++ interpolate (jsonStringifyInd 0 req)], req)

/-- The first debug log line of responseInterceptor. -/
def responseLogLine (res : JSVal) : String :=
  "RESPONSE:\n " ++ interpolate (jsonStringifyInd 0 res)

/-- Model of the call res.text.toString with argument utf-8 inside the try
block of responseInterceptor: on null and undefined the property access of
toString throws a TypeError; on a number, Number.prototype.toString coerces
the argument utf-8 to radix 0 and throws a RangeError; Boolean, String,
Object and Array prototypes ignore the argument and convert as usual. The
thrown cases are none, since the surrounding try catches them. -/
def toStringUtf8 : JSVal → Option String
  | .undefined => none
  | .null => none
  | .num _ => none
  | .bool b => some (cond b "true" "false")
  | .str s => some s
  | .obj _ => some "[object Object]"
  | .arr xs => some (templateStr (.arr xs))

/-- Embedding of responseInterceptor from src/helpers.js, parameterized by
the host primitive JSON.parse, modelled as an arbitrary function parse where
none stands for a throw on invalid input. The first log line serializes the
response; the access res.ok throws a TypeError on null and undefined; when
ok is truthy the try block decodes res.text and parses it, logging the
parsed data on success; a throw of the decode step is caught with the text
variable still unassigned, so the catch logs the word undefined; a throw of
the parse step is caught after the assignment, so the catch logs the decoded
text. In every non-throwing case the original response is returned. -/
def responseInterceptor (parse : String → Option JSVal) (res : JSVal) :
    Except JSErr (List String × JSVal) :=
  match getField res "ok" with
  | .error e => .error e
  | .ok okv =>
    if truthy okv then
      match getField res "text" with
      | .error e => .error e
      | .ok tv =>
        match toStringUtf8 tv with
        | none => .ok ([responseLogLine res, "DATA\n undefined"], res)
        | some text =>
          match parse text with
          | some v => .ok ([responseLogLine res,
              "DATA\n, " ++ interpolate (jsonStringifyInd 0 v)], res)
          | none => .ok ([responseLogLine res, "DATA\n " ++ text], res)
    else .ok ([responseLogLine res], res)

/-- Values at the JavaScript reference level: primitives are carried inline
and objects are passed as addresses into a heap, which is how a JavaScript
binding holds an object. -/
inductive RVal where
  | prim (v : JSVal)
  | addr (a : Nat)

/-- Heap of mutable objects: each address holds a field list over
reference-level values. -/
abbrev Heap := Nat → List (String × RVal)

/-- Shape built by an object literal at the reference level: fresh nested
literals, with the values of the interpolated bindings at the leaves. -/
inductive RTree where
  | leaf (v : RVal)
  | node (fields : List (String × RTree))

/-- First-occurrence lookup among the fields of a literal shape. -/
def lookupTreeField : List (String × RTree) → String → Option RTree
  | [], _ => none
  | (k, t) :: fs, key => if k = key then some t else lookupTreeField fs key

/-- First-occurrence lookup in a heap object. -/
def lookupFieldR : List (String × RVal) → String → Option RVal
  | [], _ => none
  | (k, v) :: fs, key => if k = key then some v else lookupFieldR fs key

/-- Property assignment on a heap object: an existing key is overwritten in
place, a new key is appended. -/
def setFieldR : List (String × RVal) → String → RVal → List (String × RVal)
  | [], k, v => [(k, v)]
  | (k0, v0) :: fs, k, v =>
    if k0 = k then (k, v) :: fs else (k0, v0) :: setFieldR fs k v

/-- Mutation of the object at address a: the assignment obj.k = v performed
through any alias of that object. -/
def heapWrite (h : Heap) (a : Nat) (k : String) (v : RVal) : Heap :=
  fun a0 => if a0 = a then setFieldR (h a) k v else h a0

/-- Reference-level embedding of createRequestOptions from src/helpers.js:
the object literal of the source, built over reference-level values, so that
an object-valued body argument enters the literal as its address and not as
a copy. -/
def createRequestOptionsRefLevel (tenantId apiKey accessToken body : RVal) : RTree :=
  .node
    [("requestBody", .leaf body),
     ("securities", .node
       [("authorized", .node
         [("BearerAuth", .node [("value", .leaf accessToken)]),
          ("ApiKeyAuth", .node [("value", .leaf apiKey)])])]),
     ("serverVariables", .node
       [("ORGANIZATION", .leaf tenantId)])]

/-- Read of field key through the request options: follows the requestBody
field of the returned literal and, when it holds an address, reads that
object in the heap. -/
def readRequestBodyField (h : Heap) (opts : RTree) (key : String) : Option RVal :=
  match opts with
  | .leaf _ => none
  | .node fields =>
    match lookupTreeField fields "requestBody" with
    | some (.leaf (.addr a)) => lookupFieldR (h a) key
    | _ => none

/-- Request options shape named by the spec (section 8): requestBody, then
securities.authorized with BearerAuth holding the access token and
ApiKeyAuth holding the api key, then serverVariables.ORGANIZATION holding
the tenant id. Stated from the words of the spec, for comparison with the
value the code builds. -/
def requestOptionsShape (tenantId apiKey accessToken body : JSVal) : JSVal :=
  .obj
    [("requestBody", body),
     ("securities", .obj
       [("authorized", .obj
         [("BearerAuth", .obj [("value", accessToken)]),
          ("ApiKeyAuth", .obj [("value", apiKey)])])]),
     ("serverVariables", .obj
       [("ORGANIZATION", tenantId)])]

/-- Decidable test of the guard chain of reduceError: the error has a truthy
response property carrying truthy status, statusText and body properties. -/
def hasCompleteResponse (error : JSVal) : Bool :=
  match getField error "response" with
  | .error _ => false
  | .ok response =>
    if truthy response then
      match getField response "status", getField response "statusText",
            getField response "body" with
      | .ok s, .ok st, .ok b => truthy s && truthy st && truthy b
      | _, _, _ => false
    else false

/-- The requestBody field of a built options literal, at the reference
level. -/
def optsRequestBody : RTree → Option RTree
  | .leaf _ => none
  | .node fields => lookupTreeField fields "requestBody"

theorem getField_ok_any (res : JSVal) (k k2 : String) (v : JSVal)
    (h : getField res k = .ok v) : ∃ w, getField res k2 = .ok w := by
  cases res <;> simp [getField] at h ⊢

theorem truthy_getField_ok (v : JSVal) (k : String) (h : truthy v = true) :
    ∃ w, getField v k = .ok w := by
  cases v <;> simp [truthy, getField] at h ⊢

theorem lookupFieldR_setFieldR (l : List (String × RVal)) (k : String) (v : RVal) :
    lookupFieldR (setFieldR l k v) k = some v := by
  induction l with
  | nil => simp [setFieldR, lookupFieldR]
  | cons hd tl ih =>
    obtain ⟨k0, v0⟩ := hd
    by_cases hk : k0 = k
    · simp [setFieldR, hk, lookupFieldR]
    · simp [setFieldR, hk, lookupFieldR, ih]

theorem reduceError_obj_eq (fs : List (String × JSVal)) :
    reduceError (.obj fs) =
      (if truthy (lookupField fs "response") then
        match getField (lookupField fs "response") "status" with
        | .error e => .error e
        | .ok status =>
          if truthy status then
            match getField (lookupField fs "response") "statusText" with
            | .error e => .error e
            | .ok statusText =>
              if truthy statusText then
                match getField (lookupField fs "response") "body" with
                | .error e => .error e
                | .ok body =>
                  if truthy body then
                    .ok (.str (templateStr status ++ " - " ++ templateStr statusText
                      ++ " (" ++ interpolate (jsonStringify body) ++ ")"))
                  else .ok (.obj fs)
              else .ok (.obj fs)
          else .ok (.obj fs)
      else .ok (.obj fs)) := rfl

theorem hasCompleteResponse_obj_eq (fs : List (String × JSVal)) :
    hasCompleteResponse (.obj fs) =
      (if truthy (lookupField fs "response") then
        match getField (lookupField fs "response") "status",
              getField (lookupField fs "response") "statusText",
              getField (lookupField fs "response") "body" with
        | .ok s, .ok st, .ok b => truthy s && truthy st && truthy b
        | _, _, _ => false
      else false) := rfl

theorem reduceError_result_fixed (e v : JSVal) (h : reduceError e = .ok v) :
    reduceError v = .ok v := by
  cases e with
  | undefined =>
    have h2 : Except.ok (JSVal.obj []) = Except.ok v := h
    injection h2 with h3; subst h3; rfl
  | null => exact Except.noConfusion h
  | bool b =>
    have h2 : Except.ok (JSVal.bool b) = Except.ok v := h
    injection h2 with h3; subst h3; rfl
  | num n =>
    have h2 : Except.ok (JSVal.num n) = Except.ok v := h
    injection h2 with h3; subst h3; rfl
  | str s =>
    have h2 : Except.ok (JSVal.str s) = Except.ok v := h
    injection h2 with h3; subst h3; rfl
  | arr xs =>
    have h2 : Except.ok (JSVal.arr xs) = Except.ok v := h
    injection h2 with h3; subst h3; rfl
  | obj fs =>
    rw [reduceError_obj_eq] at h
    by_cases h1 : truthy (lookupField fs "response") = true
    · obtain ⟨s, hs⟩ := truthy_getField_ok _ "status" h1
      obtain ⟨st, hst⟩ := truthy_getField_ok _ "statusText" h1
      obtain ⟨b, hb⟩ := truthy_getField_ok _ "body" h1
      by_cases h2 : truthy s = true
      · by_cases h3 : truthy st = true
        · by_cases h4 : truthy b = true
          · simp only [h1, hs, h2, hst, h3, hb, h4, if_true] at h
            injection h with h5
            subst h5
            rfl
          · simp only [h1, hs, h2, hst, h3, hb, h4, if_true, if_false] at h
            injection h with h5
            subst h5
            rw [reduceError_obj_eq]
            simp [h1, hs, h2, hst, h3, hb, h4]
        · simp only [h1, hs, h2, hst, h3, if_true, if_false] at h
          injection h with h5
          subst h5
          rw [reduceError_obj_eq]
          simp [h1, hs, h2, hst, h3]
      · simp only [h1, hs, h2, if_true, if_false] at h
        injection h with h5
        subst h5
        rw [reduceError_obj_eq]
        simp [h1, hs, h2]
    · simp only [h1, if_false] at h
      injection h with h5
      subst h5
      rw [reduceError_obj_eq]
      simp [h1]

theorem responseInterceptor_eq (parse : String → Option JSVal) (res okv : JSVal)
    (hok : getField res "ok" = .ok okv) :
    responseInterceptor parse res =
      if truthy okv then
        match getField res "text" with
        | .error e => .error e
        | .ok tv =>
          match toStringUtf8 tv with
          | none => .ok ([responseLogLine res, "DATA\n undefined"], res)
          | some text =>
            match parse text with
            | some v => .ok ([responseLogLine res,
                "DATA\n, " ++ interpolate (jsonStringifyInd 0 v)], res)
            | none => .ok ([responseLogLine res, "DATA\n " ++ text], res)
      else .ok ([responseLogLine res], res) := by
  unfold responseInterceptor
  rw [hok]

theorem responseInterceptor_ok_eq (parse : String → Option JSVal) (res okv tv : JSVal)
    (hok : getField res "ok" = .ok okv) (ht : truthy okv = true)
    (htv : getField res "text" = .ok tv) :
    responseInterceptor parse res =
      match toStringUtf8 tv with
      | none => .ok ([responseLogLine res, "DATA\n undefined"], res)
      | some text =>
        match parse text with
        | some v => .ok ([responseLogLine res,
            "DATA\n, " ++ interpolate (jsonStringifyInd 0 v)], res)
        | none => .ok ([responseLogLine res, "DATA\n " ++ text], res) := by
  rw [responseInterceptor_eq parse res okv hok, if_pos ht, htv]

theorem responseInterceptor_ok_exists (parse : String → Option JSVal) (res okv : JSVal)
    (hok : getField res "ok" = .ok okv) :
    ∃ logs, responseInterceptor parse res = .ok (logs, res) := by
  by_cases ht : truthy okv = true
  · obtain ⟨tv, htv⟩ := getField_ok_any res "ok" "text" okv hok
    rw [responseInterceptor_ok_eq parse res okv tv hok ht htv]
    cases hdec : toStringUtf8 tv with
    | none => exact ⟨[responseLogLine res, "DATA\n undefined"], by simp only [hdec]⟩
    | some text =>
      cases hp : parse text with
      | none => exact ⟨[responseLogLine res, "DATA\n " ++ text],
          by simp only [hdec, hp]⟩
      | some v => exact ⟨[responseLogLine res,
          "DATA\n, " ++ interpolate (jsonStringifyInd 0 v)], by simp only [hdec, hp]⟩
  · rw [responseInterceptor_eq parse res okv hok, if_neg ht]
    exact ⟨[responseLogLine res], rfl⟩

/-- C1: for every error value whose response substructure has status,
statusText and body all present and truthy, reduceError returns exactly the
string status - statusText (JSON serialization of body), where status and
statusText are interpolated by template-literal conversion and the body by
JSON.stringify. -/
theorem reduceError_formats_complete_response
    (error response status statusText body : JSVal)
    (hresp : getField error "response" = .ok response)
    (hrt : truthy response = true)
    (hs : getField response "status" = .ok status)
    (hst : truthy status = true)
    (ht : getField response "statusText" = .ok statusText)
    (htt : truthy statusText = true)
    (hb : getField response "body" = .ok body)
    (hbt : truthy body = true) :
    reduceError error = .ok (.str (templateStr status ++ " - "
      ++ templateStr statusText ++ " ("
      ++ interpolate (jsonStringify body) ++ ")")) := by
  cases error with
  | undefined => exact Except.noConfusion hresp
  | null => exact Except.noConfusion hresp
  | bool b =>
    have h2 : Except.ok JSVal.undefined = Except.ok response := hresp
    injection h2 with h3
    subst h3
    simp [truthy] at hrt
  | num n =>
    have h2 : Except.ok JSVal.undefined = Except.ok response := hresp
    injection h2 with h3
    subst h3
    simp [truthy] at hrt
  | str s2 =>
    have h2 : Except.ok JSVal.undefined = Except.ok response := hresp
    injection h2 with h3
    subst h3
    simp [truthy] at hrt
  | arr xs =>
    have h2 : Except.ok JSVal.undefined = Except.ok response := hresp
    injection h2 with h3
    subst h3
    simp [truthy] at hrt
  | obj fs =>
    have h2 : Except.ok (lookupField fs "response") = Except.ok response := hresp
    injection h2 with h3
    rw [reduceError_obj_eq, h3]
    simp only [hrt, hs, hst, ht, htt, hb, hbt, if_true]

/-- Witness for C1 at a concrete error with a complete response. -/
theorem reduceError_formats_complete_response_witness :
    reduceError (.obj [("response", .obj [("status", .num 500),
      ("statusText", .str "Internal Server Error"),
      ("body", .obj [("code", .num 1)])])])
      = .ok (.str "500 - Internal Server Error (\x7b\"code\":1\x7d)") := by
  have h := reduceError_formats_complete_response
    (.obj [("response", .obj [("status", .num 500),
      ("statusText", .str "Internal Server Error"),
      ("body", .obj [("code", .num 1)])])])
    (.obj [("status", .num 500), ("statusText", .str "Internal Server Error"),
      ("body", .obj [("code", .num 1)])])
    (.num 500) (.str "Internal Server Error") (.obj [("code", .num 1)])
    rfl rfl rfl rfl rfl rfl rfl rfl
  rw [h]
  rfl

/-- C2 counterexample: at the null error value, whose response substructure
is absent, the code does not return the original value: the property access
error.response throws a TypeError, because the default parameter of
reduceError replaces only undefined, not null. -/
theorem reduceError_null_counterexample :
    reduceError JSVal.null ≠ Except.ok JSVal.null :=
  fun h => Except.noConfusion h

/-- C2 amended: for every error value other than null and undefined, when
the guard chain of the source fails (no truthy response property carrying
truthy status, statusText and body), reduceError returns the original error
value itself, not a string; at undefined it instead returns a fresh empty
object, and at null it throws a TypeError. -/
theorem reduceError_passthrough_amended (error : JSVal)
    (hnull : error ≠ JSVal.null) (hundef : error ≠ JSVal.undefined)
    (hinc : hasCompleteResponse error = false) :
    reduceError error = .ok error := by
  cases error with
  | undefined => exact absurd rfl hundef
  | null => exact absurd rfl hnull
  | bool b => rfl
  | num n => rfl
  | str s => rfl
  | arr xs => rfl
  | obj fs =>
    rw [hasCompleteResponse_obj_eq] at hinc
    rw [reduceError_obj_eq]
    by_cases h1 : truthy (lookupField fs "response") = true
    · obtain ⟨s, hs⟩ := truthy_getField_ok _ "status" h1
      obtain ⟨st, hst⟩ := truthy_getField_ok _ "statusText" h1
      obtain ⟨b, hb⟩ := truthy_getField_ok _ "body" h1
      simp only [h1, hs, hst, hb, if_true] at hinc
      by_cases h2 : truthy s = true
      · by_cases h3 : truthy st = true
        · by_cases h4 : truthy b = true
          · exfalso
            rw [h2, h3, h4] at hinc
            simp at hinc
          · simp [h1, hs, h2, hst, h3, hb, h4]
        · simp [h1, hs, h2, hst, h3]
      · simp [h1, hs, h2]
    · simp [h1]

/-- Witness for C2 amended at a concrete error without a response field. -/
theorem reduceError_passthrough_amended_witness :
    reduceError (.obj [("code", .num 7)]) = .ok (.obj [("code", .num 7)]) :=
  reduceError_passthrough_amended (.obj [("code", .num 7)])
    (by simp) (by simp) rfl

/-- C3: for every tenantId, apiKey and accessToken, createRequestOptions
with those three fields and body omitted returns exactly the request options
shape of the spec with an empty object as requestBody, and with a body
supplied (any value other than undefined, which JavaScript default
parameters treat as omission) the same shape with that body as
requestBody. -/
theorem createRequestOptions_builds_spec_shape (tenantId apiKey accessToken : JSVal) :
    createRequestOptions (.obj [("tenantId", tenantId), ("apiKey", apiKey),
        ("accessToken", accessToken)])
      = .ok (requestOptionsShape tenantId apiKey accessToken (.obj [])) ∧
    (∀ body, body ≠ JSVal.undefined →
      createRequestOptions (.obj [("tenantId", tenantId), ("apiKey", apiKey),
          ("accessToken", accessToken), ("body", body)])
        = .ok (requestOptionsShape tenantId apiKey accessToken body)) := by
  constructor
  · rfl
  · intro body hb
    cases body with
    | undefined => exact absurd rfl hb
    | null => rfl
    | bool b => rfl
    | num n => rfl
    | str s => rfl
    | arr xs => rfl
    | obj fs => rfl

/-- Witness for C3 at concrete credentials, with and without a body. -/
theorem createRequestOptions_builds_spec_shape_witness :
    createRequestOptions (.obj [("tenantId", .str "T"), ("apiKey", .str "K"),
        ("accessToken", .str "A")])
      = .ok (requestOptionsShape (.str "T") (.str "K") (.str "A") (.obj [])) ∧
    createRequestOptions (.obj [("tenantId", .str "T"), ("apiKey", .str "K"),
        ("accessToken", .str "A"), ("body", .obj [("x", .num 1)])])
      = .ok (requestOptionsShape (.str "T") (.str "K") (.str "A")
          (.obj [("x", .num 1)])) :=
  ⟨(createRequestOptions_builds_spec_shape (.str "T") (.str "K") (.str "A")).1,
   (createRequestOptions_builds_spec_shape (.str "T") (.str "K") (.str "A")).2
     (.obj [("x", .num 1)]) (by simp)⟩

/-- C4 counterexample: createRequestOptions is not total over all inputs: at
the null argument the destructuring of the parameter object throws a
TypeError instead of succeeding. -/
theorem createRequestOptions_null_counterexample :
    createRequestOptions JSVal.null = Except.error JSErr.typeError := rfl

/-- C4 amended: for every argument other than null and undefined,
createRequestOptions succeeds, and it validates nothing: arbitrary
credential values, including empty or malformed strings, are passed through
into the result unchanged. It is a pure function of its argument by
construction, with no log output and no state. -/
theorem createRequestOptions_total_amended :
    (∀ params, params ≠ JSVal.null → params ≠ JSVal.undefined →
      ∃ opts, createRequestOptions params = .ok opts) ∧
    (∀ tenantId apiKey accessToken body, body ≠ JSVal.undefined →
      createRequestOptions (.obj [("tenantId", tenantId), ("apiKey", apiKey),
          ("accessToken", accessToken), ("body", body)])
        = .ok (requestOptionsShape tenantId apiKey accessToken body)) := by
  constructor
  · intro params h1 h2
    cases params with
    | undefined => exact absurd rfl h2
    | null => exact absurd rfl h1
    | bool b => exact ⟨_, rfl⟩
    | num n => exact ⟨_, rfl⟩
    | str s => exact ⟨_, rfl⟩
    | arr xs => exact ⟨_, rfl⟩
    | obj fs => exact ⟨_, rfl⟩
  · intro tenantId apiKey accessToken body hb
    cases body with
    | undefined => exact absurd rfl hb
    | null => rfl
    | bool b => rfl
    | num n => rfl
    | str s => rfl
    | arr xs => rfl
    | obj fs => rfl

/-- Witness for C4 amended: an argument with no fields at all succeeds, and
empty credential strings pass through unvalidated. -/
theorem createRequestOptions_total_amended_witness :
    (∃ opts, createRequestOptions (.obj []) = .ok opts) ∧
    createRequestOptions (.obj [("tenantId", .str ""), ("apiKey", .str ""),
        ("accessToken", .str ""), ("body", .null)])
      = .ok (requestOptionsShape (.str "") (.str "") (.str "") .null) :=
  ⟨createRequestOptions_total_amended.1 (.obj []) (by simp) (by simp),
   createRequestOptions_total_amended.2 (.str "") (.str "") (.str "") .null (by simp)⟩

/-- C5 counterexample: responseInterceptor does throw for one input: at the
null response the access res.ok raises a TypeError, which no try block
surrounds. The parse primitive is irrelevant there. -/
theorem responseInterceptor_null_counterexample :
    responseInterceptor (fun _ => none) JSVal.null = Except.error JSErr.typeError := rfl

/-- C5 amended: for every input other than null and undefined, and for every
behaviour of the parse primitive, responseInterceptor never throws: in
particular a falsy ok, an undecodable text and a malformed (unparseable)
text are all swallowed by the try block and the interceptor still returns
normally. -/
theorem responseInterceptor_no_throw_amended (parse : String → Option JSVal)
    (res : JSVal) (h1 : res ≠ JSVal.null) (h2 : res ≠ JSVal.undefined) :
    ∃ logs, responseInterceptor parse res = .ok (logs, res) := by
  have hex : ∃ okv, getField res "ok" = .ok okv := by
    cases res with
    | undefined => exact absurd rfl h2
    | null => exact absurd rfl h1
    | bool b => exact ⟨_, rfl⟩
    | num n => exact ⟨_, rfl⟩
    | str s => exact ⟨_, rfl⟩
    | arr xs => exact ⟨_, rfl⟩
    | obj fs => exact ⟨_, rfl⟩
  obtain ⟨okv, hok⟩ := hex
  exact responseInterceptor_ok_exists parse res okv hok

/-- Witness for C5 amended at a response with truthy ok and a text that any
parse rejects. -/
theorem responseInterceptor_no_throw_amended_witness :
    ∃ logs, responseInterceptor (fun _ => none)
      (.obj [("ok", .bool true), ("text", .str "not json")])
      = .ok (logs, .obj [("ok", .bool true), ("text", .str "not json")]) :=
  responseInterceptor_no_throw_amended (fun _ => none)
    (.obj [("ok", .bool true), ("text", .str "not json")]) (by simp) (by simp)

/-- C6: for every response on which the ok read succeeds,
responseInterceptor returns that very response value, whatever the outcome
of decode and parse; and when ok is falsy only the response log line is
emitted and the parse primitive is never consulted: interceptors with
different parse functions coincide there. -/
theorem responseInterceptor_returns_same_response
    (parse : String → Option JSVal) (res okv : JSVal)
    (hok : getField res "ok" = .ok okv) :
    (∃ logs, responseInterceptor parse res = .ok (logs, res)) ∧
    (truthy okv = false →
      responseInterceptor parse res = .ok ([responseLogLine res], res) ∧
      ∀ parse2, responseInterceptor parse2 res = responseInterceptor parse res) := by
  refine ⟨responseInterceptor_ok_exists parse res okv hok,
    fun hfalse => ⟨?_, fun parse2 => ?_⟩⟩
  · rw [responseInterceptor_eq parse res okv hok, if_neg (by simp [hfalse])]
  · rw [responseInterceptor_eq parse res okv hok, if_neg (by simp [hfalse]),
      responseInterceptor_eq parse2 res okv hok, if_neg (by simp [hfalse])]

/-- Witness for C6 at a response with ok set to false. -/
theorem responseInterceptor_returns_same_response_witness :
    (∃ logs, responseInterceptor (fun _ => none) (.obj [("ok", .bool false)])
      = .ok (logs, .obj [("ok", .bool false)])) ∧
    responseInterceptor (fun _ => none) (.obj [("ok", .bool false)])
      = .ok ([responseLogLine (.obj [("ok", .bool false)])],
          .obj [("ok", .bool false)]) :=
  ⟨(responseInterceptor_returns_same_response (fun _ => none)
      (.obj [("ok", .bool false)]) (.bool false) rfl).1,
   ((responseInterceptor_returns_same_response (fun _ => none)
      (.obj [("ok", .bool false)]) (.bool false) rfl).2 rfl).1⟩

/-- C7: requestInterceptor returns the exact value it was given and emits
one debug line holding the serialized request; being a pure total function
of its argument in this embedding, it neither throws nor mutates its
input. -/
theorem requestInterceptor_identity (req : JSVal) :
    (requestInterceptor req).2 = req ∧
    (requestInterceptor req).1
      = ["REQUEST:\n " ++ interpolate (jsonStringifyInd 0 req)] :=
  ⟨rfl, rfl⟩

/-- C8: whenever ok is truthy, the text decodes, and the parse of the
decoded text fails, the fallback debug line logs exactly that decoded text:
the text variable is assigned by the decode statement before the parse
attempt, so the catch branch never logs an unassigned value on a parse
failure. -/
theorem responseInterceptor_fallback_logs_decoded_text
    (parse : String → Option JSVal) (res okv tv : JSVal) (text : String)
    (hok : getField res "ok" = .ok okv) (ht : truthy okv = true)
    (htv : getField res "text" = .ok tv)
    (hdec : toStringUtf8 tv = some text)
    (hp : parse text = none) :
    responseInterceptor parse res
      = .ok ([responseLogLine res, "DATA\n " ++ text], res) := by
  rw [responseInterceptor_ok_eq parse res okv tv hok ht htv]
  simp only [hdec, hp]

/-- Witness for C8 at a concrete ok response whose text no parse accepts. -/
theorem responseInterceptor_fallback_logs_decoded_text_witness :
    responseInterceptor (fun _ => none)
      (.obj [("ok", .bool true), ("text", .str "oops")])
      = .ok ([responseLogLine (.obj [("ok", .bool true), ("text", .str "oops")]),
          "DATA\n oops"],
        .obj [("ok", .bool true), ("text", .str "oops")]) :=
  responseInterceptor_fallback_logs_decoded_text (fun _ => none)
    (.obj [("ok", .bool true), ("text", .str "oops")])
    (.bool true) (.str "oops") "oops" rfl rfl rfl rfl rfl

/-- C9: reduceError is idempotent in the Kleisli sense of its exception
monad: a second application to a first result changes nothing, and in
particular an already formatted error string passes through unchanged. The
function is a pure function of its argument in this embedding, so it is
stateless and returns the same result for identical inputs by
construction. -/
theorem reduceError_idempotent :
    (∀ e, (reduceError e).bind reduceError = reduceError e) ∧
    (∀ s, reduceError (.str s) = .ok (.str s)) := by
  constructor
  · intro e
    cases he : reduceError e with
    | error err => rfl
    | ok v =>
      show reduceError v = Except.ok v
      exact reduceError_result_fixed e v he
  · intro s
    rfl

/-- C10: at the reference level, the requestBody slot of the options built
by createRequestOptions holds the very address of the supplied body object,
not a copy, so a later field assignment to that object through any alias is
visible when reading back through the returned request options. -/
theorem createRequestOptions_requestBody_aliases_body
    (tenantId apiKey accessToken : RVal) (a : Nat) (h : Heap)
    (key : String) (v : RVal) :
    optsRequestBody (createRequestOptionsRefLevel tenantId apiKey accessToken (.addr a))
      = some (.leaf (.addr a)) ∧
    readRequestBodyField (heapWrite h a key v)
      (createRequestOptionsRefLevel tenantId apiKey accessToken (.addr a)) key
      = some v := by
  constructor
  · rfl
  · show lookupFieldR (if a = a then setFieldR (h a) key v else h a) key = some v
    rw [if_pos rfl]
    exact lookupFieldR_setFieldR (h a) key v
